import Mathlib

/-!
Verification of the pig-personality-test scoring core.

Shallow embedding of `src/lib/scoring/pigRules.ts`,
`src/lib/azure/content-understanding.ts` (the polling loop) and the
content validator, with the data model of `src/lib/types.ts`.
Numbers are embedded as rationals (the thresholds and all arithmetic
in the claims are exact rationals).
-/

namespace Pig

/-- The definition `BoundingBox` from `src/lib/types.ts`: `{x, y, width, height}`. -/
structure BoundingBox where
  x : ℚ
  y : ℚ
  width : ℚ
  height : ℚ
deriving DecidableEq, Repr

/-- The canvas size inside `Detection.overall`. -/
structure Canvas where
  width : ℚ
  height : ℚ
deriving DecidableEq, Repr

/-- The definition `DetectionRegion` from `src/lib/types.ts`. The bounding box is optional
here because the rule code guards against its absence at runtime
(`head.boundingBox && body.boundingBox`, `ears.filter(e => e.boundingBox)`). -/
structure DetectionRegion where
  boundingBox : Option BoundingBox
  confidence : ℚ
deriving DecidableEq, Repr

/-- The definition `Detection.overall` from `src/lib/types.ts`. -/
structure Overall where
  boundingBox : BoundingBox
  canvas : Canvas
deriving DecidableEq, Repr

/-- The definition `Detection` from `src/lib/types.ts`, together with the direct scalar
fields that `pigRules.ts` probes dynamically (`(detection as any).verticalPlacement`
and friends). A `none` models the absent (undefined) field. -/
structure Detection where
  head : Option DetectionRegion := none
  body : Option DetectionRegion := none
  legs : Option (List DetectionRegion) := none
  ears : Option (List DetectionRegion) := none
  tail : Option DetectionRegion := none
  overall : Overall
  detailCount : ℤ
  verticalPlacement : Option String := none
  orientation : Option String := none
  legCount : Option ℤ := none
  earSize : Option String := none
  tailLength : Option ℚ := none
deriving DecidableEq, Repr

/-- Trait categories (`PersonalityTrait.category` in `src/lib/types.ts`). -/
inductive Category where
  | placement
  | orientation
  | details
  | legs
  | ears
  | tail
deriving DecidableEq, Repr

/-- The `string | number` type of `Evidence.value`. -/
inductive EvValue where
  | str : String → EvValue
  | num : ℚ → EvValue
deriving DecidableEq, Repr

/-- The definition `Evidence` from `src/lib/types.ts` (the optional confidence is never
set by the rules code and is omitted). -/
structure Evidence where
  key : String
  value : EvValue
deriving DecidableEq, Repr

/-- The definition `PersonalityTrait` from `src/lib/types.ts`. -/
structure PersonalityTrait where
  category : Category
  statement : String
  evidence : Evidence
deriving DecidableEq, Repr

/-! The definitions mirror `PERSONALITY_STATEMENTS` from `src/lib/prompts.ts`. -/
namespace STATEMENTS

def placementTop : String := "tendency to be positive and optimistic."

def placementMiddle : String := "tendency to be a realist."

def placementBottom : String :=
  "tendency to be pessimistic and may be prone to behaving negatively."

def orientationLeft : String :=
  "believe in tradition and be friendly; may remember dates well."

def orientationRight : String :=
  "innovative and active; may forget dates and may not have a strong sense of family."

def orientationFront : String :=
  "direct; may enjoy playing devil's advocate; not prone to fearing or avoiding confrontational discussions."

def detailsMany : String := "analytical; may be cautious and struggle with trust."

def detailsFew : String :=
  "emotional; big-picture; great risk taker; may be reckless or impulsive."

def legsFour : String := "secure and stick to ideals; may be described as stubborn."

def legsLessThanFour : String :=
  "major period of change; may struggle with insecurities."

def earsLarge : String := "good listener (the bigger, the better)."

def tailLong : String := "indicates intelligence (the longer, the better)."

end STATEMENTS

/-! Threshold constants from `src/lib/scoring/pigRules.ts`. -/
def PLACEMENT_TOP : ℚ := 33 / 100

def PLACEMENT_BOTTOM : ℚ := 67 / 100

def DETAIL_THRESHOLD : ℤ := 5

def EAR_SIZE_RATIO : ℚ := 3 / 10

def TAIL_LENGTH_RATIO : ℚ := 4 / 10

/-- JavaScript `Math.round`: round half toward positive infinity. -/
def jsRound (q : ℚ) : ℤ := ⌊q + 1 / 2⌋

/-- A JS string is truthy exactly when it is nonempty; `pigRules.ts` tests
the direct string fields with `if (directPlacement)` etc. -/
def truthy : Option String → Option String
  | some s => if s = "" then none else some s
  | none => none

/-- The direct-field branch of `evaluatePlacement`: statement lookup with
`statements[directPlacement] || PERSONALITY_STATEMENTS.placement.middle`. -/
def placementDirectTrait (s : String) : PersonalityTrait :=
  let statement :=
    if s = "Top" then STATEMENTS.placementTop
    else if s = "Middle" then STATEMENTS.placementMiddle
    else if s = "Bottom" then STATEMENTS.placementBottom
    else STATEMENTS.placementMiddle
  { category := .placement
    statement := statement
    evidence := { key := "placement=" ++ s, value := .str s } }

/-- The definition `evaluatePlacement` from `src/lib/scoring/pigRules.ts`. -/
def evaluatePlacement (d : Detection) : Option PersonalityTrait :=
  match truthy d.verticalPlacement with
  | some s => some (placementDirectTrait s)
  | none =>
    let bbox := d.overall.boundingBox
    let canvas := d.overall.canvas
    let centroidY := bbox.y + bbox.height / 2
    let relativeY := centroidY / canvas.height
    let sv : String × String :=
      if relativeY < PLACEMENT_TOP then (STATEMENTS.placementTop, "Top")
      else if relativeY > PLACEMENT_BOTTOM then (STATEMENTS.placementBottom, "Bottom")
      else (STATEMENTS.placementMiddle, "Middle")
    some { category := .placement
           statement := sv.1
           evidence := { key := "placement=" ++ sv.2
                         value := .num ((jsRound (relativeY * 100) : ℚ) / 100) } }

/-- The direct-field branch of `evaluateOrientation`. -/
def orientationDirectTrait (s : String) : PersonalityTrait :=
  let statement :=
    if s = "Left" then STATEMENTS.orientationLeft
    else if s = "Right" then STATEMENTS.orientationRight
    else if s = "Front" then STATEMENTS.orientationFront
    else STATEMENTS.orientationFront
  { category := .orientation
    statement := statement
    evidence := { key := "orientation=" ++ s, value := .str s } }

/-- Statement lookup for a computed orientation verdict. -/
def orientationStatement (s : String) : String :=
  if s = "Left" then STATEMENTS.orientationLeft
  else if s = "Right" then STATEMENTS.orientationRight
  else STATEMENTS.orientationFront

/-- The definition `evaluateOrientation` from `src/lib/scoring/pigRules.ts`. -/
def evaluateOrientation (d : Detection) : Option PersonalityTrait :=
  match truthy d.orientation with
  | some s => some (orientationDirectTrait s)
  | none =>
    match d.head, d.body with
    | none, none =>
      some { category := .orientation
             statement := STATEMENTS.orientationFront
             evidence := { key := "orientation=Front", value := .str "Front (default)" } }
    | head?, body? =>
      let orientation : String :=
        match head?, body? with
        | some head, some body =>
          match head.boundingBox, body.boundingBox with
          | some hb, some bb =>
            let headCenterX := hb.x + hb.width / 2
            let bodyCenterX := bb.x + bb.width / 2
            let offset := headCenterX - bodyCenterX
            let bodyWidth := bb.width
            if |offset| > bodyWidth * (2 / 10) then
              if offset < 0 then "Left" else "Right"
            else "Front"
          | _, _ => earSpacingCase d
        | _, _ => earSpacingCase d
      some { category := .orientation
             statement := orientationStatement orientation
             evidence := { key := "orientation=" ++ orientation
                           value := .str orientation } }
where
  /-- The `else if (ears && ears.length >= 2 && ...)` branch: it can only
  reassign `Front`, which is already the default, so the verdict is `Front`
  whether or not its guard fires. -/
  earSpacingCase (_ : Detection) : String := "Front"

/-- The definition `evaluateDetailLevel` from `src/lib/scoring/pigRules.ts`. -/
def evaluateDetailLevel (d : Detection) : Option PersonalityTrait :=
  let detailCount := d.detailCount
  let isDetailed := detailCount > DETAIL_THRESHOLD
  some { category := .details
         statement := if isDetailed then STATEMENTS.detailsMany else STATEMENTS.detailsFew
         evidence := { key := if isDetailed then "details=Many" else "details=Few"
                       value := .num (detailCount : ℚ) } }

/-- The leg count used by `evaluateLegCount`:
`directLegCount ?? detection.legs?.length ?? 0`. -/
def legCountOf (d : Detection) : ℤ :=
  match d.legCount with
  | some n => n
  | none =>
    match d.legs with
    | some l => (l.length : ℤ)
    | none => 0

/-- The definition `evaluateLegCount` from `src/lib/scoring/pigRules.ts`. -/
def evaluateLegCount (d : Detection) : Option PersonalityTrait :=
  let legCount := legCountOf d
  let hasFourLegs := legCount = 4
  some { category := .legs
         statement := if hasFourLegs then STATEMENTS.legsFour else STATEMENTS.legsLessThanFour
         evidence := { key := "legs=" ++ toString legCount
                       value := .num (legCount : ℚ) } }

/-- The ears of a detection with a bounding box
(`ears.filter(e => e.boundingBox)`). -/
def validEars (ears : List DetectionRegion) : List DetectionRegion :=
  ears.filter (fun e => e.boundingBox.isSome)

/-- Height of a region's bounding box, 0 when absent (only applied to
regions already filtered by `validEars`). -/
def regionHeight (e : DetectionRegion) : ℚ :=
  match e.boundingBox with
  | some bb => bb.height
  | none => 0

/-- Average bounding-box height of a list of ear regions
(`reduce((sum, ear) => sum + ear.boundingBox.height, 0) / validEars.length`). -/
def avgEarHeight (l : List DetectionRegion) : ℚ :=
  (l.map regionHeight).sum / (l.length : ℚ)

/-- The definition `evaluateEarSize` from `src/lib/scoring/pigRules.ts`. -/
def evaluateEarSize (d : Detection) : Option PersonalityTrait :=
  if d.earSize = some "Large" then
    some { category := .ears
           statement := STATEMENTS.earsLarge
           evidence := { key := "ears=Large", value := .str "Large" } }
  else if d.earSize = some "Normal" then
    none
  else
    match d.ears with
    | none => none
    | some ears =>
      if ears.length = 0 then none
      else
        match d.head.bind (fun h => h.boundingBox) with
        | none =>
          let ve := validEars ears
          if ve.length = 0 then none
          else
            let relativeSize := avgEarHeight ve / d.overall.canvas.height
            if relativeSize > 1 / 10 then
              some { category := .ears
                     statement := STATEMENTS.earsLarge
                     evidence := { key := "ears=Large", value := .str "Large" } }
            else none
        | some headBox =>
          let ve := validEars ears
          if ve.length = 0 then none
          else
            let earToHeadRatio := avgEarHeight ve / headBox.height
            if earToHeadRatio > EAR_SIZE_RATIO then
              some { category := .ears
                     statement := STATEMENTS.earsLarge
                     evidence := { key := "ears=Large"
                                   value := .str (toString (jsRound (earToHeadRatio * 100)) ++ "% of head") } }
            else none

/-- The definition `evaluateTailLength` from `src/lib/scoring/pigRules.ts`. -/
def evaluateTailLength (d : Detection) : Option PersonalityTrait :=
  match d.tailLength with
  | some directTailLength =>
    if directTailLength > TAIL_LENGTH_RATIO then
      some { category := .tail
             statement := STATEMENTS.tailLong
             evidence := { key := "tail=Long", value := .num directTailLength } }
    else none
  | none =>
    match d.tail.bind (fun t => t.boundingBox) with
    | none => none
    | some tailBox =>
      let tailLength := max tailBox.width tailBox.height
      match d.body.bind (fun b => b.boundingBox) with
      | none =>
        let canvasSize := max d.overall.canvas.width d.overall.canvas.height
        let relativeLength := tailLength / canvasSize
        if relativeLength > 15 / 100 then
          some { category := .tail
                 statement := STATEMENTS.tailLong
                 evidence := { key := "tail=Long", value := .str "Long" } }
        else none
      | some bodyBox =>
        let bodyWidth := bodyBox.width
        let tailToBodyRatio := tailLength / bodyWidth
        if tailToBodyRatio > TAIL_LENGTH_RATIO then
          some { category := .tail
                 statement := STATEMENTS.tailLong
                 evidence := { key := "tail=Long"
                               value := .str (toString (jsRound (tailToBodyRatio * 100)) ++ "% of body") } }
        else none

/-- The definition `analyzePigDrawing` from `src/lib/scoring/pigRules.ts`: push each rule's
trait, when present, in the fixed order. -/
def analyzePigDrawing (d : Detection) : List PersonalityTrait :=
  (evaluatePlacement d).toList ++
  (evaluateOrientation d).toList ++
  (evaluateDetailLevel d).toList ++
  (evaluateLegCount d).toList ++
  (evaluateEarSize d).toList ++
  (evaluateTailLength d).toList

/-- The fixed 0-trait message of `generateSummary`. -/
def UNABLE_MESSAGE : String :=
  "Unable to analyze drawing. Please ensure the pig is clearly visible."

/-- The definition `generateSummary` from `src/lib/scoring/pigRules.ts`. -/
def generateSummary (traits : List PersonalityTrait) : String :=
  if traits.length = 0 then UNABLE_MESSAGE
  else
    let statements := traits.map (fun t => t.statement)
    if statements.length = 1 then "You have a " ++ statements.headI
    else if statements.length = 2 then
      "You " ++ statements.headI ++ " You also " ++ statements.getLastD ""
    else
      let firstPart := String.intercalate " You " statements.dropLast
      let lastPart := statements.getLastD ""
      "You " ++ firstPart ++ " Finally, you " ++ lastPart

/-! The polling loop of `src/lib/azure/content-understanding.ts`, modelled
over the sequence of status responses the analyzer returns. -/
/-- The definition `AzureAnalyzerResponse.status` from `src/lib/types.ts`. -/
inductive PollStatus where
  | notStarted
  | running
  | succeeded
  | failed
deriving DecidableEq, Repr

/-- The slice of `AzureAnalyzerResponse` the poll loop inspects: the status,
an opaque result payload and an optional error message. -/
structure AzureResponse where
  status : PollStatus
  result : Option String := none
  errorMessage : Option String := none
deriving DecidableEq, Repr

/-- The definition `MAX_POLLING_ATTEMPTS` from `src/lib/azure/content-understanding.ts`. -/
def MAX_POLLING_ATTEMPTS : ℕ := 60

/-- The error string built by `pollForResults` on a `Failed` status:
`Analysis failed: ${result.error?.message || 'Unknown error'}` (JS `||`
treats the empty string as absent). -/
def failedMessage (r : AzureResponse) : String :=
  "Analysis failed: " ++
    (match r.errorMessage with
     | some m => if m = "" then "Unknown error" else m
     | none => "Unknown error")

/-- Outcome of the poll loop: the succeeded response is returned, a failure
or a timeout is thrown. -/
inductive PollOutcome where
  | success : AzureResponse → PollOutcome
  | failure : String → PollOutcome
  | timeout : PollOutcome
deriving DecidableEq, Repr

/-- The body of the `for` loop in `pollForResults`, recursing over the
remaining attempts; `attempt` is the index of the next response. -/
def pollAux (responses : ℕ → AzureResponse) : ℕ → ℕ → PollOutcome
  | 0, _ => .timeout
  | fuel + 1, attempt =>
    let r := responses attempt
    if r.status = .succeeded then .success r
    else if r.status = .failed then .failure (failedMessage r)
    else pollAux responses fuel (attempt + 1)

/-- The definition `pollForResults` from `src/lib/azure/content-understanding.ts`, as a
function of the stream of responses (`responses i` is the body returned by
the i-th GET). -/
def pollForResults (responses : ℕ → AzureResponse) : PollOutcome :=
  pollAux responses MAX_POLLING_ATTEMPTS 0

/-- A status is terminal when it is `Succeeded` or `Failed`. -/
def PollStatus.isTerminal : PollStatus → Bool
  | .succeeded => true
  | .failed => true
  | _ => false

/-! The content validator. -/
/-- Lowercase an ASCII letter, leave any other character unchanged. -/
def lowerChar (c : Char) : Char :=
  if 65 ≤ c.toNat ∧ c.toNat ≤ 90 then Char.ofNat (c.toNat + 32) else c

/-- Lowercase a string characterwise. -/
def lowerStr (s : String) : String := String.mk (s.data.map lowerChar)

/-- Whether `pre` is a leading segment of `l` (character lists). -/
def leadsList : List Char → List Char → Bool
  | [], _ => true
  | _ :: _, [] => false
  | p :: ps, c :: cs => p = c && leadsList ps cs

/-- Whether `needle` occurs as a contiguous segment of `hay`. -/
def containsList (needle : List Char) : List Char → Bool
  | [] => leadsList needle []
  | c :: cs => leadsList needle (c :: cs) || containsList needle cs

/-- Substring test on strings. -/
def strContainsSub (hay needle : String) : Bool :=
  containsList needle.data hay.data

/-- Modelled from the spec: the primary subject keyword list of the content
validator `isPigDescription`, whose definition is not among the sources
(only its import, caller and tests are). Keywords taken from the spec's
"primary subject nouns and synonyms" and the test fixtures. -/
def pigKeywords : List String := ["pig", "piglet", "porcine", "swine", "hog"]

/-- Modelled from the spec: the secondary anatomy/feature keyword list of
`isPigDescription`, from the spec and the test fixtures. -/
def anatomyKeywords : List String := ["snout", "curly tail", "trotters"]

/-- Modelled from the spec: `isPigDescription` (the Content Validator
`isExpectedSubject`), missing from the sources. Per §4.2: case-insensitive
match of the description against a fixed subject keyword list plus a
secondary anatomy keyword list, true when either matches; undefined or
empty description returns false. -/
def isPigDescription : Option String → Bool
  | none => false
  | some s =>
    if s = "" then false
    else
      let l := lowerStr s
      pigKeywords.any (fun k => strContainsSub l k) ||
        anatomyKeywords.any (fun k => strContainsSub l k)

def sampleTraitA : PersonalityTrait :=
  { category := .placement, statement := "tendency to be a realist."
    evidence := { key := "placement=Middle", value := .str "Middle" } }

def sampleTraitB : PersonalityTrait :=
  { category := .details, statement := "analytical; may be cautious and struggle with trust."
    evidence := { key := "details=Many", value := .num 8 } }

def sampleTraitC : PersonalityTrait :=
  { category := .legs, statement := "secure and stick to ideals; may be described as stubborn."
    evidence := { key := "legs=4", value := .num 4 } }

/-- The direct-field branch of `evaluateLegCount` (also the shape of every
leg trait). -/
def legDirectTrait (n : ℤ) : PersonalityTrait :=
  { category := .legs
    statement := if n = 4 then STATEMENTS.legsFour else STATEMENTS.legsLessThanFour
    evidence := { key := "legs=" ++ toString n, value := .num (n : ℚ) } }

/-- The Large-ears trait, emitted by the direct branch of `evaluateEarSize`. -/
def earsLargeTrait : PersonalityTrait :=
  { category := .ears, statement := STATEMENTS.earsLarge
    evidence := { key := "ears=Large", value := .str "Large" } }

/-- The direct-field branch trait of `evaluateTailLength`. -/
def tailDirectTrait (q : ℚ) : PersonalityTrait :=
  { category := .tail, statement := STATEMENTS.tailLong
    evidence := { key := "tail=Long", value := .num q } }

/-- A detection whose direct fields all contradict its region geometry:
the drawing sits at the bottom of the canvas but `verticalPlacement` says
Top, the head is right of the body but `orientation` says Left, two leg
regions but `legCount` is 4, oversized ear regions but `earSize` is
Normal, a tiny tail region but `tailLength` is 0.5. -/
def dContradict : Detection :=
  { head := some { boundingBox := some { x := 300, y := 400, width := 100, height := 50 }
                   confidence := 9 / 10 }
    body := some { boundingBox := some { x := 0, y := 400, width := 100, height := 100 }
                   confidence := 9 / 10 }
    legs := some [ { boundingBox := some { x := 0, y := 450, width := 10, height := 50 }
                     confidence := 9 / 10 }
                 , { boundingBox := some { x := 20, y := 450, width := 10, height := 50 }
                     confidence := 9 / 10 } ]
    ears := some [ { boundingBox := some { x := 300, y := 300, width := 50, height := 400 }
                     confidence := 9 / 10 } ]
    tail := some { boundingBox := some { x := 0, y := 400, width := 2, height := 2 }
                   confidence := 9 / 10 }
    overall := { boundingBox := { x := 0, y := 400, width := 400, height := 100 }
                 canvas := { width := 500, height := 500 } }
    detailCount := 8
    verticalPlacement := some "Top"
    orientation := some "Left"
    legCount := some 4
    earSize := some "Normal"
    tailLength := some (1 / 2) }

/-- Like `dContradict` but with `earSize` Large. -/
def dContradictLarge : Detection :=
  { dContradict with earSize := some "Large" }

/-- A 500-square canvas shared by the concrete witness detections. -/
def baseOverall : Overall :=
  { boundingBox := { x := 0, y := 0, width := 500, height := 500 }
    canvas := { width := 500, height := 500 } }

/-- A 100×100 canvas whose subject centroid sits at relative height 0.33. -/
def dRatio33 : Detection :=
  { overall := { boundingBox := { x := 0, y := 23, width := 10, height := 20 }
                 canvas := { width := 100, height := 100 } }
    detailCount := 0 }

/-- A 100×100 canvas whose subject centroid sits at relative height 0.67. -/
def dRatio67 : Detection :=
  { overall := { boundingBox := { x := 0, y := 57, width := 10, height := 20 }
                 canvas := { width := 100, height := 100 } }
    detailCount := 0 }

/-- A detection with exactly 5 detected parts. -/
def dDetail5 : Detection :=
  { overall := baseOverall, detailCount := 5 }

/-- A detection with exactly 6 detected parts. -/
def dDetail6 : Detection :=
  { overall := baseOverall, detailCount := 6 }

/-- One ear of height 30 on a head of height 100: ear ratio exactly 0.3. -/
def dEarBoundary : Detection :=
  { ears := some [ { boundingBox := some { x := 0, y := 0, width := 10, height := 30 }
                     confidence := 1 } ]
    head := some { boundingBox := some { x := 0, y := 0, width := 50, height := 100 }
                   confidence := 1 }
    overall := baseOverall
    detailCount := 0 }

/-- A direct tail length of exactly 0.4. -/
def dTailDirect : Detection :=
  { overall := baseOverall, detailCount := 0, tailLength := some (4 / 10) }

/-- A tail of longest dimension 40 on a body of width 100: tail ratio 0.4. -/
def dTailBoundary : Detection :=
  { tail := some { boundingBox := some { x := 0, y := 0, width := 40, height := 20 }
                   confidence := 1 }
    body := some { boundingBox := some { x := 0, y := 0, width := 100, height := 50 }
                   confidence := 1 }
    overall := baseOverall
    detailCount := 0 }

/-- An ear region of height 100. -/
def earRegion100 : DetectionRegion :=
  { boundingBox := some { x := 0, y := 0, width := 30, height := 100 }, confidence := 1 }

/-- No head, one ear of height 100 on a 500-high canvas: ear/canvas ratio 0.2. -/
def dEarNoHead : Detection :=
  { ears := some [earRegion100]
    overall := { boundingBox := { x := 0, y := 0, width := 500, height := 500 }
                 canvas := { width := 500, height := 500 } }
    detailCount := 0 }

/-- The Left trait produced by the orientation fallback. -/
def orientLeftTrait : PersonalityTrait :=
  { category := .orientation, statement := STATEMENTS.orientationLeft,
    evidence := { key := "orientation=Left", value := .str "Left" } }

/-- The Right trait produced by the orientation fallback. -/
def orientRightTrait : PersonalityTrait :=
  { category := .orientation, statement := STATEMENTS.orientationRight,
    evidence := { key := "orientation=Right", value := .str "Right" } }

/-- The Front trait produced by the orientation fallback's main path. -/
def orientFrontTrait : PersonalityTrait :=
  { category := .orientation, statement := STATEMENTS.orientationFront,
    evidence := { key := "orientation=Front", value := .str "Front" } }

/-- The Front trait produced when both head and body are absent. -/
def orientFrontDefaultTrait : PersonalityTrait :=
  { category := .orientation, statement := STATEMENTS.orientationFront,
    evidence := { key := "orientation=Front", value := .str "Front (default)" } }

/-- Head far left of the body: offset −80 against a threshold of 20. -/
def dOrientLeft : Detection :=
  { head := some { boundingBox := some { x := 0, y := 0, width := 20, height := 20 }
                   confidence := 1 }
    body := some { boundingBox := some { x := 40, y := 0, width := 100, height := 50 }
                   confidence := 1 }
    overall := baseOverall
    detailCount := 0 }

/-- A detection with no regions at all. -/
def dNoRegions : Detection :=
  { overall := baseOverall, detailCount := 0 }

/-- Two running polls, then success. -/
def fSucc : ℕ → AzureResponse := fun n =>
  if n < 2 then { status := .running }
  else { status := .succeeded, result := some "payload" }

/-- One not-started poll, then failure. -/
def fFail : ℕ → AzureResponse := fun n =>
  if n = 0 then { status := .notStarted }
  else { status := .failed, errorMessage := some "boom" }

/-- Never terminal. -/
def fRun : ℕ → AzureResponse := fun _ => { status := .running }

theorem evaluatePlacement_isSome (d : Detection) : (evaluatePlacement d).isSome := by
  unfold evaluatePlacement
  repeat' split
  all_goals rfl

theorem evaluatePlacement_cat (d : Detection) (t : PersonalityTrait)
    (h : evaluatePlacement d = some t) : t.category = .placement := by
  unfold evaluatePlacement at h
  dsimp only at h
  repeat' split at h
  all_goals first
  | exact Option.noConfusion h
  | (injection h with h; subst h; rfl)

theorem evaluateOrientation_isSome (d : Detection) : (evaluateOrientation d).isSome := by
  unfold evaluateOrientation
  repeat' split
  all_goals rfl

theorem evaluateOrientation_cat (d : Detection) (t : PersonalityTrait)
    (h : evaluateOrientation d = some t) : t.category = .orientation := by
  unfold evaluateOrientation at h
  dsimp only at h
  repeat' split at h
  all_goals first
  | exact Option.noConfusion h
  | (injection h with h; subst h; rfl)

theorem evaluateDetailLevel_isSome (d : Detection) : (evaluateDetailLevel d).isSome := by
  rfl

theorem evaluateDetailLevel_cat (d : Detection) (t : PersonalityTrait)
    (h : evaluateDetailLevel d = some t) : t.category = .details := by
  unfold evaluateDetailLevel at h
  dsimp only at h
  repeat' split at h
  all_goals first
  | exact Option.noConfusion h
  | (injection h with h; subst h; rfl)

theorem evaluateLegCount_isSome (d : Detection) : (evaluateLegCount d).isSome := by
  rfl

theorem evaluateLegCount_cat (d : Detection) (t : PersonalityTrait)
    (h : evaluateLegCount d = some t) : t.category = .legs := by
  unfold evaluateLegCount at h
  dsimp only at h
  repeat' split at h
  all_goals first
  | exact Option.noConfusion h
  | (injection h with h; subst h; rfl)

theorem evaluateEarSize_cat (d : Detection) (t : PersonalityTrait)
    (h : evaluateEarSize d = some t) : t.category = .ears := by
  unfold evaluateEarSize at h
  dsimp only at h
  repeat' split at h
  all_goals first
  | exact Option.noConfusion h
  | (injection h with h; subst h; rfl)

theorem evaluateTailLength_cat (d : Detection) (t : PersonalityTrait)
    (h : evaluateTailLength d = some t) : t.category = .tail := by
  unfold evaluateTailLength at h
  dsimp only at h
  repeat' split at h
  all_goals first
  | exact Option.noConfusion h
  | (injection h with h; subst h; rfl)

theorem optCatSublist {o : Option PersonalityTrait} {X : Category}
    (h : ∀ t, o = some t → t.category = X) :
    (o.toList.map PersonalityTrait.category).Sublist [X] := by
  cases o with
  | none => simp
  | some t => simp [h t rfl]

theorem analyzePig_cats_sublist (d : Detection) :
    ((analyzePigDrawing d).map PersonalityTrait.category).Sublist
      [.placement, .orientation, .details, .legs, .ears, .tail] := by
  unfold analyzePigDrawing
  simp only [List.map_append]
  exact ((((optCatSublist (evaluatePlacement_cat d)).append
    (optCatSublist (evaluateOrientation_cat d))).append
    (optCatSublist (evaluateDetailLevel_cat d))).append
    (optCatSublist (evaluateLegCount_cat d))).append
    (optCatSublist (evaluateEarSize_cat d)) |>.append
    (optCatSublist (evaluateTailLength_cat d))

theorem toList_length_one {α : Type} {o : Option α} (h : o.isSome) :
    o.toList.length = 1 := by
  cases o with
  | none => cases h
  | some a => rfl

theorem analyzePig_length (d : Detection) : 4 ≤ (analyzePigDrawing d).length := by
  unfold analyzePigDrawing
  simp only [List.length_append]
  have h1 := toList_length_one (evaluatePlacement_isSome d)
  have h2 := toList_length_one (evaluateOrientation_isSome d)
  have h3 := toList_length_one (evaluateDetailLevel_isSome d)
  have h4 := toList_length_one (evaluateLegCount_isSome d)
  omega

theorem generateSummary_three_le (ts : List PersonalityTrait) (h : 3 ≤ ts.length) :
    generateSummary ts =
      "You " ++ String.intercalate " You " ((ts.map (fun t => t.statement)).dropLast)
        ++ " Finally, you " ++ (ts.map (fun t => t.statement)).getLastD "" := by
  unfold generateSummary
  rw [if_neg (by omega), if_neg (by simp; omega), if_neg (by simp; omega)]

theorem summary_ne_unable (ts : List PersonalityTrait) (h : 3 ≤ ts.length) :
    generateSummary ts ≠ UNABLE_MESSAGE := by
  rw [generateSummary_three_le ts h]
  intro hEq
  have hHead : ("You " ++ String.intercalate " You " ((ts.map (fun t => t.statement)).dropLast)
      ++ " Finally, you " ++ (ts.map (fun t => t.statement)).getLastD "").data.head? =
      UNABLE_MESSAGE.data.head? := by rw [hEq]
  simp only [String.data_append] at hHead
  simp [UNABLE_MESSAGE] at hHead

/-- C8: the categories of `analyzePigDrawing`'s output follow the fixed
order placement, orientation, details, legs, ears, tail (they form a
subsequence of that list) and each category occurs at most once. -/
theorem C8_trait_order (d : Detection) :
    ((analyzePigDrawing d).map PersonalityTrait.category).Sublist
      [.placement, .orientation, .details, .legs, .ears, .tail] ∧
    ∀ c : Category, ((analyzePigDrawing d).map PersonalityTrait.category).count c ≤ 1 := by
  refine ⟨analyzePig_cats_sublist d, fun c => ?_⟩
  have h := (analyzePig_cats_sublist d).count_le c
  have hone : ([Category.placement, .orientation, .details, .legs, .ears,
      .tail].count c) ≤ 1 := by
    cases c <;> decide
  exact le_trans h hone

/-- C9: the placement, orientation, details and legs evaluators always
produce a trait, so `analyzePigDrawing` returns at least 4 traits and the
0-trait "Unable to analyze" summary branch is unreachable on its output. -/
theorem C9_min_traits (d : Detection) :
    (evaluatePlacement d).isSome ∧ (evaluateOrientation d).isSome ∧
    (evaluateDetailLevel d).isSome ∧ (evaluateLegCount d).isSome ∧
    4 ≤ (analyzePigDrawing d).length ∧
    generateSummary (analyzePigDrawing d) ≠ UNABLE_MESSAGE :=
  ⟨evaluatePlacement_isSome d, evaluateOrientation_isSome d,
   evaluateDetailLevel_isSome d, evaluateLegCount_isSome d,
   analyzePig_length d,
   summary_ne_unable _ (le_trans (by omega) (analyzePig_length d))⟩

/-- C3: the leg rule always emits a trait: four legs give the "secure"
statement, any other count (0, 2, 3, 5, ...) the "period of change"
statement, with evidence key `legs=<N>` for the actual count. -/
theorem C3_leg_rule (d : Detection) :
    evaluateLegCount d =
      some { category := .legs
             statement := if legCountOf d = 4 then STATEMENTS.legsFour
                          else STATEMENTS.legsLessThanFour
             evidence := { key := "legs=" ++ toString (legCountOf d)
                           value := .num ((legCountOf d : ℤ) : ℚ) } } := rfl

/-- C5: the summary composer's four cases: 0 traits give the fixed
"Unable to analyze" message, 1 trait gives "You have a <s>", 2 traits give
"You <s1> You also <s2>", and 3 or more traits join all but the last with
" You " after "You " and append " Finally, you <last>". -/
theorem C5_summary_laws :
    (generateSummary [] = UNABLE_MESSAGE ∧
      strContainsSub UNABLE_MESSAGE "Unable to analyze" = true) ∧
    (∀ t : PersonalityTrait, generateSummary [t] = "You have a " ++ t.statement) ∧
    (∀ t1 t2 : PersonalityTrait,
      generateSummary [t1, t2] = "You " ++ t1.statement ++ " You also " ++ t2.statement) ∧
    (∀ ts : List PersonalityTrait, 3 ≤ ts.length →
      generateSummary ts =
        "You " ++ String.intercalate " You " ((ts.map (fun t => t.statement)).dropLast)
          ++ " Finally, you " ++ (ts.map (fun t => t.statement)).getLastD "") :=
  ⟨⟨rfl, by decide⟩, fun t => rfl, fun t1 t2 => rfl, generateSummary_three_le⟩

/-- Witness for C5 at a concrete three-trait list. -/
theorem C5_summary_laws_witness :
    3 ≤ ([sampleTraitA, sampleTraitB, sampleTraitC] : List PersonalityTrait).length ∧
    generateSummary [sampleTraitA, sampleTraitB, sampleTraitC] =
      "You tendency to be a realist. You analytical; may be cautious and struggle with trust. Finally, you secure and stick to ideals; may be described as stubborn." :=
  ⟨by decide,
   (C5_summary_laws.2.2.2 [sampleTraitA, sampleTraitB, sampleTraitC] (by decide)).trans rfl⟩

/-- C1: whenever a direct scalar field is present (truthy string, any
number, or a domain value for earSize), the rule's output is exactly the
direct-field branch, independent of all region geometry. -/
theorem C1_direct_fields_authoritative :
    (∀ (d : Detection) (s : String), d.verticalPlacement = some s → s ≠ "" →
      evaluatePlacement d = some (placementDirectTrait s)) ∧
    (∀ (d : Detection) (s : String), d.orientation = some s → s ≠ "" →
      evaluateOrientation d = some (orientationDirectTrait s)) ∧
    (∀ (d : Detection) (n : ℤ), d.legCount = some n →
      evaluateLegCount d = some (legDirectTrait n)) ∧
    (∀ d : Detection, d.earSize = some "Large" →
      evaluateEarSize d = some earsLargeTrait) ∧
    (∀ d : Detection, d.earSize = some "Normal" → evaluateEarSize d = none) ∧
    (∀ (d : Detection) (q : ℚ), d.tailLength = some q →
      evaluateTailLength d =
        if q > TAIL_LENGTH_RATIO then some (tailDirectTrait q) else none) := by
  refine ⟨?_, ?_, ?_, ?_, ?_, ?_⟩
  · intro d s h hs
    simp [evaluatePlacement, truthy, h, hs]
  · intro d s h hs
    simp [evaluateOrientation, truthy, h, hs]
  · intro d n h
    simp [evaluateLegCount, legCountOf, h, legDirectTrait]
  · intro d h
    simp [evaluateEarSize, h, earsLargeTrait]
  · intro d h
    simp [evaluateEarSize, h]
  · intro d q h
    simp [evaluateTailLength, h, tailDirectTrait]

/-- Witness for C1 on `dContradict`. -/
theorem C1_direct_fields_witness :
    evaluatePlacement dContradict = some (placementDirectTrait "Top") ∧
    evaluateOrientation dContradict = some (orientationDirectTrait "Left") ∧
    evaluateLegCount dContradict = some (legDirectTrait 4) ∧
    evaluateEarSize dContradictLarge = some earsLargeTrait ∧
    evaluateEarSize dContradict = none ∧
    evaluateTailLength dContradict =
      (if (1 : ℚ) / 2 > TAIL_LENGTH_RATIO then some (tailDirectTrait (1 / 2)) else none) :=
  ⟨C1_direct_fields_authoritative.1 dContradict "Top" rfl (by decide),
   C1_direct_fields_authoritative.2.1 dContradict "Left" rfl (by decide),
   C1_direct_fields_authoritative.2.2.1 dContradict 4 rfl,
   C1_direct_fields_authoritative.2.2.2.1 dContradictLarge rfl,
   C1_direct_fields_authoritative.2.2.2.2.1 dContradict rfl,
   C1_direct_fields_authoritative.2.2.2.2.2 dContradict (1 / 2) rfl⟩

/-- C2: every decision threshold is strict: a placement ratio of exactly
0.33 or 0.67 lands in Middle, detailCount 5 is Few and 6 is Many, an
ear-to-head ratio of exactly 0.3 emits no ear trait, and a tail ratio
(direct or region-derived) of exactly 0.4 emits no tail trait. -/
theorem C2_strict_boundaries :
    (∀ d : Detection, truthy d.verticalPlacement = none →
      (d.overall.boundingBox.y + d.overall.boundingBox.height / 2) / d.overall.canvas.height
        = 33 / 100 →
      evaluatePlacement d =
        some { category := .placement,
               statement := STATEMENTS.placementMiddle,
               evidence := { key := "placement=Middle", value := .num (33 / 100) } }) ∧
    (∀ d : Detection, truthy d.verticalPlacement = none →
      (d.overall.boundingBox.y + d.overall.boundingBox.height / 2) / d.overall.canvas.height
        = 67 / 100 →
      evaluatePlacement d =
        some { category := .placement,
               statement := STATEMENTS.placementMiddle,
               evidence := { key := "placement=Middle", value := .num (67 / 100) } }) ∧
    (∀ d : Detection, d.detailCount = 5 →
      evaluateDetailLevel d =
        some { category := .details,
               statement := STATEMENTS.detailsFew,
               evidence := { key := "details=Few", value := .num 5 } }) ∧
    (∀ d : Detection, d.detailCount = 6 →
      evaluateDetailLevel d =
        some { category := .details,
               statement := STATEMENTS.detailsMany,
               evidence := { key := "details=Many", value := .num 6 } }) ∧
    (∀ (d : Detection) (ears : List DetectionRegion) (headBox : BoundingBox),
      d.earSize = none → d.ears = some ears →
      d.head.bind (fun h => h.boundingBox) = some headBox →
      avgEarHeight (validEars ears) / headBox.height = 3 / 10 →
      evaluateEarSize d = none) ∧
    (∀ d : Detection, d.tailLength = some (4 / 10) → evaluateTailLength d = none) ∧
    (∀ (d : Detection) (tailBox bodyBox : BoundingBox),
      d.tailLength = none →
      d.tail.bind (fun t => t.boundingBox) = some tailBox →
      d.body.bind (fun b => b.boundingBox) = some bodyBox →
      max tailBox.width tailBox.height / bodyBox.width = 4 / 10 →
      evaluateTailLength d = none) := by
  refine ⟨?_, ?_, ?_, ?_, ?_, ?_, ?_⟩
  · intro d htr hrel
    simp only [evaluatePlacement, htr]
    rw [hrel]
    norm_num [PLACEMENT_TOP, PLACEMENT_BOTTOM, jsRound]
    rfl
  · intro d htr hrel
    simp only [evaluatePlacement, htr]
    rw [hrel]
    norm_num [PLACEMENT_TOP, PLACEMENT_BOTTOM, jsRound]
    rfl
  · intro d h
    simp [evaluateDetailLevel, h, DETAIL_THRESHOLD]
  · intro d h
    simp [evaluateDetailLevel, h, DETAIL_THRESHOLD]
  · intro d ears headBox hsz hears hhead hrel
    simp [evaluateEarSize, hsz, hears, hhead, hrel, EAR_SIZE_RATIO]
  · intro d h
    simp [evaluateTailLength, h, TAIL_LENGTH_RATIO]
  · intro d tailBox bodyBox hdir htail hbody hrel
    simp [evaluateTailLength, hdir, htail, hbody, hrel, TAIL_LENGTH_RATIO]

/-- Witness for C2 at concrete boundary inputs. -/
theorem C2_strict_boundaries_witness :
    evaluatePlacement dRatio33 =
      some { category := .placement,
             statement := STATEMENTS.placementMiddle,
             evidence := { key := "placement=Middle", value := .num (33 / 100) } } ∧
    evaluatePlacement dRatio67 =
      some { category := .placement,
             statement := STATEMENTS.placementMiddle,
             evidence := { key := "placement=Middle", value := .num (67 / 100) } } ∧
    evaluateDetailLevel dDetail5 =
      some { category := .details,
             statement := STATEMENTS.detailsFew,
             evidence := { key := "details=Few", value := .num 5 } } ∧
    evaluateDetailLevel dDetail6 =
      some { category := .details,
             statement := STATEMENTS.detailsMany,
             evidence := { key := "details=Many", value := .num 6 } } ∧
    evaluateEarSize dEarBoundary = none ∧
    evaluateTailLength dTailDirect = none ∧
    evaluateTailLength dTailBoundary = none :=
  ⟨C2_strict_boundaries.1 dRatio33 rfl (by norm_num [dRatio33]),
   C2_strict_boundaries.2.1 dRatio67 rfl (by norm_num [dRatio67]),
   C2_strict_boundaries.2.2.1 dDetail5 rfl,
   C2_strict_boundaries.2.2.2.1 dDetail6 rfl,
   C2_strict_boundaries.2.2.2.2.1 dEarBoundary _ _ rfl rfl rfl
     (by norm_num [avgEarHeight, validEars, regionHeight]),
   C2_strict_boundaries.2.2.2.2.2.1 dTailDirect rfl,
   C2_strict_boundaries.2.2.2.2.2.2 dTailBoundary _ _ rfl rfl rfl (by norm_num)⟩

/-- Counterexample to C4 as stated: with no head region, an ear-to-canvas
ratio of 0.2 — not above the claimed 0.3 threshold — still emits the
Large-ears trait (the code's canvas fallback threshold is 0.1). -/
theorem C4_counterexample :
    dEarNoHead.earSize = none ∧ dEarNoHead.head = none ∧
    dEarNoHead.ears = some [earRegion100] ∧
    avgEarHeight (validEars [earRegion100]) / dEarNoHead.overall.canvas.height = 2 / 10 ∧
    ¬((2 : ℚ) / 10 > 3 / 10) ∧
    evaluateEarSize dEarNoHead = some earsLargeTrait := by
  refine ⟨rfl, rfl, rfl, ?_, by norm_num, ?_⟩
  · norm_num [avgEarHeight, validEars, regionHeight, earRegion100, dEarNoHead]
  · norm_num [evaluateEarSize, dEarNoHead, earRegion100, earsLargeTrait,
      validEars, avgEarHeight, regionHeight]
    intro _ h
    exact Option.noConfusion h

/-- C4 amended: with no direct earSize, a non-empty ears list and no head
region, the Large-ears trait is emitted exactly when some ear has a
bounding box and the average ear height over the canvas height exceeds
0.1 (the code's canvas-fallback threshold, not 0.3). -/
theorem C4_ear_canvas_threshold :
    ∀ (d : Detection) (ears : List DetectionRegion),
      d.earSize = none → d.ears = some ears → ears ≠ [] → d.head = none →
      (evaluateEarSize d = none ∨ evaluateEarSize d = some earsLargeTrait) ∧
      (evaluateEarSize d = some earsLargeTrait ↔
        validEars ears ≠ [] ∧
        avgEarHeight (validEars ears) / d.overall.canvas.height > 1 / 10) := by
  intro d ears hsz hears hne hhead
  have hbind : d.head.bind (fun h => h.boundingBox) = none := by rw [hhead]; rfl
  simp only [evaluateEarSize, hsz, hears, hbind]
  norm_num [hne, earsLargeTrait]
  by_cases hve : validEars ears = []
  · simp [hve]
  · simp only [hve, if_false]
    by_cases hr : avgEarHeight (validEars ears) / d.overall.canvas.height > 1 / 10
    · simp [hr, hve]
      exact le_or_lt _ _
    · simp [hr, hve]
      exact le_or_lt _ _

/-- Witness for the amended C4 at `dEarNoHead` (ratio 0.2 > 0.1). -/
theorem C4_ear_canvas_threshold_witness :
    evaluateEarSize dEarNoHead = some earsLargeTrait :=
  (C4_ear_canvas_threshold dEarNoHead [earRegion100] rfl rfl (by decide) rfl).2.mpr
    ⟨by decide, by norm_num [avgEarHeight, validEars, regionHeight, earRegion100, dEarNoHead]⟩

/-- C10: in the orientation fallback (no direct field), Left/Right require
head and body boxes with |head center − body center| above 0.2 of the body
width (negative offset Left, otherwise Right); every other case — missing
box, offset within threshold, ear-spacing path — yields a Front verdict. -/
theorem C10_orientation_fallback :
    ∀ d : Detection, truthy d.orientation = none →
      (∀ hb bb : BoundingBox,
        d.head.bind (fun h => h.boundingBox) = some hb →
        d.body.bind (fun b => b.boundingBox) = some bb →
        ((|hb.x + hb.width / 2 - (bb.x + bb.width / 2)| > bb.width * (2 / 10)) →
          evaluateOrientation d =
            some (if hb.x + hb.width / 2 - (bb.x + bb.width / 2) < 0 then orientLeftTrait
                  else orientRightTrait)) ∧
        (¬(|hb.x + hb.width / 2 - (bb.x + bb.width / 2)| > bb.width * (2 / 10)) →
          evaluateOrientation d = some orientFrontTrait)) ∧
      ((d.head.bind (fun h => h.boundingBox) = none ∨
        d.body.bind (fun b => b.boundingBox) = none) →
        evaluateOrientation d = some orientFrontDefaultTrait ∨
        evaluateOrientation d = some orientFrontTrait) := by
  intro d htr
  constructor
  · intro hb bb hh hbb
    rcases hH : d.head with _ | h
    · rw [hH] at hh; simp at hh
    rcases hB : d.body with _ | b
    · rw [hB] at hbb; simp at hbb
    rw [hH] at hh
    rw [hB] at hbb
    simp only [Option.some_bind] at hh hbb
    constructor
    · intro hoff
      simp only [evaluateOrientation, htr, hH, hB, hh, hbb]
      rw [if_pos hoff]
      by_cases hneg : hb.x + hb.width / 2 - (bb.x + bb.width / 2) < 0
      · rw [if_pos hneg, if_pos hneg]
        rfl
      · rw [if_neg hneg, if_neg hneg]
        rfl
    · intro hoff
      simp only [evaluateOrientation, htr, hH, hB, hh, hbb]
      rw [if_neg hoff]
      rfl
  · intro hmiss
    rcases hH : d.head with _ | h
    · rcases hB : d.body with _ | b
      · left
        simp only [evaluateOrientation, htr, hH, hB]
        rfl
      · right
        simp only [evaluateOrientation, htr, hH, hB]
        rfl
    · rcases hB : d.body with _ | b
      · right
        simp only [evaluateOrientation, htr, hH, hB]
        rfl
      · rcases hmiss with hm | hm
        · rw [hH] at hm
          simp only [Option.some_bind] at hm
          right
          simp only [evaluateOrientation, htr, hH, hB, hm]
          rcases hbB : b.boundingBox with _ | bbB
          · rfl
          · rfl
        · rw [hB] at hm
          simp only [Option.some_bind] at hm
          right
          simp only [evaluateOrientation, htr, hH, hB, hm]
          rcases hbH : h.boundingBox with _ | bbH
          · rfl
          · rfl

/-- Witness for C10: a concrete left-facing drawing and a region-free one. -/
theorem C10_orientation_fallback_witness :
    evaluateOrientation dOrientLeft = some orientLeftTrait ∧
    (evaluateOrientation dNoRegions = some orientFrontDefaultTrait ∨
     evaluateOrientation dNoRegions = some orientFrontTrait) := by
  refine ⟨?_, (C10_orientation_fallback dNoRegions rfl).2 (Or.inl rfl)⟩
  have h := ((C10_orientation_fallback dOrientLeft rfl).1
      { x := 0, y := 0, width := 20, height := 20 }
      { x := 40, y := 0, width := 100, height := 50 } rfl rfl).1 (by norm_num)
  rw [h]
  norm_num

theorem pollAux_timeout_iff (f : ℕ → AzureResponse) :
    ∀ (fuel a : ℕ),
      (pollAux f fuel a = .timeout ↔
        ∀ j, j < fuel → (f (a + j)).status.isTerminal = false) := by
  intro fuel
  induction fuel with
  | zero => intro a; simp [pollAux]
  | succ n ih =>
    intro a
    rw [pollAux]
    by_cases hs : (f a).status = .succeeded
    · rw [if_pos hs]
      constructor
      · intro h; exact PollOutcome.noConfusion h
      · intro h
        exfalso
        have h0 := h 0 (by omega)
        rw [Nat.add_zero, hs] at h0
        simp [PollStatus.isTerminal] at h0
    · rw [if_neg hs]
      by_cases hf : (f a).status = .failed
      · rw [if_pos hf]
        constructor
        · intro h; exact PollOutcome.noConfusion h
        · intro h
          exfalso
          have h0 := h 0 (by omega)
          rw [Nat.add_zero, hf] at h0
          simp [PollStatus.isTerminal] at h0
      · rw [if_neg hf, ih (a + 1)]
        constructor
        · intro h j hj
          cases j with
          | zero =>
            rw [Nat.add_zero]
            cases hst : (f a).status with
            | notStarted => rfl
            | running => rfl
            | succeeded => exact absurd hst hs
            | failed => exact absurd hst hf
          | succ k =>
            have hk := h k (by omega)
            have heq : a + 1 + k = a + (k + 1) := by omega
            rw [heq] at hk
            exact hk
        · intro h j hj
          have heq : a + 1 + j = a + (j + 1) := by omega
          rw [heq]
          exact h (j + 1) (by omega)

theorem pollAux_first_terminal (f : ℕ → AzureResponse) :
    ∀ (i fuel a : ℕ), i < fuel →
      (∀ j, j < i → (f (a + j)).status.isTerminal = false) →
      (f (a + i)).status.isTerminal = true →
      pollAux f fuel a =
        (if (f (a + i)).status = .succeeded then .success (f (a + i))
         else .failure (failedMessage (f (a + i)))) := by
  intro i
  induction i with
  | zero =>
    intro fuel a hfuel _ hterm
    rw [Nat.add_zero] at hterm ⊢
    obtain ⟨n, rfl⟩ : ∃ n, fuel = n + 1 := ⟨fuel - 1, by omega⟩
    rw [pollAux]
    by_cases hs : (f a).status = .succeeded
    · rw [if_pos hs, if_pos hs]
    · rw [if_neg hs, if_neg hs]
      by_cases hf : (f a).status = .failed
      · rw [if_pos hf]
      · exfalso
        cases hst : (f a).status with
        | notStarted => rw [hst] at hterm; simp [PollStatus.isTerminal] at hterm
        | running => rw [hst] at hterm; simp [PollStatus.isTerminal] at hterm
        | succeeded => exact hs hst
        | failed => exact hf hst
  | succ k ih =>
    intro fuel a hfuel hbefore hterm
    obtain ⟨n, rfl⟩ : ∃ n, fuel = n + 1 := ⟨fuel - 1, by omega⟩
    have h0 := hbefore 0 (by omega)
    rw [Nat.add_zero] at h0
    have hs : (f a).status ≠ .succeeded := by
      intro hst; rw [hst] at h0; simp [PollStatus.isTerminal] at h0
    have hf : (f a).status ≠ .failed := by
      intro hst; rw [hst] at h0; simp [PollStatus.isTerminal] at h0
    rw [pollAux, if_neg hs, if_neg hf]
    have heq : a + 1 + k = a + (k + 1) := by omega
    have := ih n (a + 1) (by omega)
      (fun j hj => by
        have heq2 : a + 1 + j = a + (j + 1) := by omega
        rw [heq2]
        exact hbefore (j + 1) (by omega))
      (by rw [heq]; exact hterm)
    rw [this, heq]

theorem pollForResults_locality (f g : ℕ → AzureResponse) (i : ℕ)
    (hi : i < MAX_POLLING_ATTEMPTS)
    (hbefore : ∀ j, j < i → (f j).status.isTerminal = false)
    (hterm : (f i).status.isTerminal = true)
    (hagree : ∀ j, j ≤ i → g j = f j) :
    pollForResults g = pollForResults f := by
  have hzf : ∀ j, (f (0 + j)) = f j := fun j => by rw [Nat.zero_add]
  have hf := pollAux_first_terminal f i MAX_POLLING_ATTEMPTS 0 hi
    (fun j hj => by rw [Nat.zero_add]; exact hbefore j hj)
    (by rw [Nat.zero_add]; exact hterm)
  have hg := pollAux_first_terminal g i MAX_POLLING_ATTEMPTS 0 hi
    (fun j hj => by
      rw [Nat.zero_add, hagree j (by omega)]
      exact hbefore j hj)
    (by rw [Nat.zero_add, hagree i (by omega)]; exact hterm)
  unfold pollForResults
  rw [hf, hg, Nat.zero_add, hagree i (by omega)]

/-- C6: the poll loop returns the first `Succeeded` response, raises the
failure error at the first `Failed` response without consulting any later
response, retries on any other status, and times out exactly when none of
the first 60 responses is terminal. -/
theorem C6_poll_loop :
    (∀ (f : ℕ → AzureResponse) (i : ℕ),
      i < MAX_POLLING_ATTEMPTS →
      (∀ j, j < i → (f j).status.isTerminal = false) →
      (f i).status.isTerminal = true →
      (pollForResults f =
        (if (f i).status = .succeeded then .success (f i)
         else .failure (failedMessage (f i)))) ∧
      (∀ g : ℕ → AzureResponse, (∀ j, j ≤ i → g j = f j) →
        pollForResults g = pollForResults f)) ∧
    (∀ f : ℕ → AzureResponse,
      pollForResults f = .timeout ↔
        ∀ j, j < MAX_POLLING_ATTEMPTS → (f j).status.isTerminal = false) := by
  constructor
  · intro f i hi hbefore hterm
    constructor
    · have hf := pollAux_first_terminal f i MAX_POLLING_ATTEMPTS 0 hi
        (fun j hj => by rw [Nat.zero_add]; exact hbefore j hj)
        (by rw [Nat.zero_add]; exact hterm)
      unfold pollForResults
      rw [hf, Nat.zero_add]
    · intro g hagree
      exact pollForResults_locality f g i hi hbefore hterm hagree
  · intro f
    unfold pollForResults
    rw [pollAux_timeout_iff f MAX_POLLING_ATTEMPTS 0]
    constructor
    · intro h j hj
      have := h j hj
      rwa [Nat.zero_add] at this
    · intro h j hj
      rw [Nat.zero_add]
      exact h j hj

/-- Witness for C6: success at the third response, failure at the second,
timeout when nothing terminal ever arrives. -/
theorem C6_poll_loop_witness :
    pollForResults fSucc = .success { status := .succeeded, result := some "payload" } ∧
    pollForResults fFail = .failure "Analysis failed: boom" ∧
    pollForResults fRun = .timeout := by
  refine ⟨?_, ?_, ?_⟩
  · have h := (C6_poll_loop.1 fSucc 2 (by norm_num [MAX_POLLING_ATTEMPTS]) (by decide) rfl).1
    rw [h]; rfl
  · have h := (C6_poll_loop.1 fFail 1 (by norm_num [MAX_POLLING_ATTEMPTS]) (by decide) rfl).1
    rw [h]; rfl
  · exact (C6_poll_loop.2 fRun).mpr (by decide)

theorem char_ofNat_toNat : ∀ n, n < 123 → (Char.ofNat n).toNat = n := by decide

theorem lowerChar_idem (c : Char) : lowerChar (lowerChar c) = lowerChar c := by
  unfold lowerChar
  by_cases h : 65 ≤ c.toNat ∧ c.toNat ≤ 90
  · rw [if_pos h]
    have ht : (Char.ofNat (c.toNat + 32)).toNat = c.toNat + 32 :=
      char_ofNat_toNat _ (by omega)
    have hn : ¬(65 ≤ (Char.ofNat (c.toNat + 32)).toNat ∧
        (Char.ofNat (c.toNat + 32)).toNat ≤ 90) := by
      rw [ht]; omega
    rw [if_neg hn]
  · rw [if_neg h, if_neg h]

theorem lowerStr_idem (s : String) : lowerStr (lowerStr s) = lowerStr s := by
  unfold lowerStr
  rw [show (String.mk (s.data.map lowerChar)).data = s.data.map lowerChar from rfl]
  rw [List.map_map]
  congr 1
  exact List.map_congr_left (fun c _ => lowerChar_idem c)

theorem lowerStr_eq_empty_iff (s : String) : lowerStr s = "" ↔ s = "" := by
  constructor
  · intro h
    have hd : (lowerStr s).data = ([] : List Char) := by rw [h]
    unfold lowerStr at hd
    rw [show (String.mk (s.data.map lowerChar)).data = s.data.map lowerChar from rfl] at hd
    have hnil : s.data = [] := by
      cases hs : s.data with
      | nil => rfl
      | cons c cs => rw [hs] at hd; simp at hd
    exact String.ext (hnil.trans rfl)
  · intro h
    rw [h]
    rfl

/-- C7: the content validator returns false on undefined and empty input,
true on "a cartoon pig", false on "a photograph of a cat", and is
case-insensitive: lowercasing the input never changes the verdict. -/
theorem C7_validator :
    isPigDescription none = false ∧
    isPigDescription (some "") = false ∧
    isPigDescription (some "a cartoon pig") = true ∧
    isPigDescription (some "a photograph of a cat") = false ∧
    (∀ s : String, isPigDescription (some s) = isPigDescription (some (lowerStr s))) := by
  refine ⟨rfl, rfl, by decide, by decide, ?_⟩
  intro s
  by_cases h : s = ""
  · rw [h]; rfl
  · simp only [isPigDescription]
    rw [if_neg h, if_neg (fun hh => h ((lowerStr_eq_empty_iff s).mp hh))]
    rw [lowerStr_idem]

end Pig
